import Mathlib

/-!
Shallow embedding of `src/services/openai_wrapper.py` (class `OpenAIWrapper`).

Modelling conventions:
* Python attributes that may be absent are `Option` fields; a Python value
  that may itself be `None` sits inside a second `Option` layer
  (`Option (Option Int)`): the outer layer is "the attribute exists",
  the inner one is "the value is not None".
* The response's `output` attribute is special: the code reads it with plain
  attribute access and iterates it (line 51), so it can be absent
  (AttributeError), present but not iterable (TypeError), or an iterable of
  items that may or may not be a `list` (line 71 checks `isinstance(..., list)`).
* Python `int` is `Int`; USD amounts computed with float arithmetic are
  modelled exactly as rationals `ℚ`; `round(x, 6)` is round-half-to-even of
  `x * 10^6` divided by `10^6`.
* Exceptions are `Except PyErr`; the external collaborator
  `client.responses.create` is a parameter `create` returning
  `Except PyErr RawResponse`.
-/

/-- A content part of an output item: `text` is `some s` exactly when the
Python object has a `text` attribute (checked by `hasattr(p, "text")`). -/
structure ContentPart where
  text : Option String
deriving DecidableEq

/-- An item of the response's `output` sequence, with the attributes the
wrapper reads defensively: `role` (line 51), `type` (line 73) and
`content` (line 55), each possibly absent. -/
structure OutputItem where
  role : Option String
  type : Option String
  content : Option (List ContentPart)
deriving DecidableEq

/-- The `output` attribute of a raw response: absent (attribute access at
line 51 raises AttributeError), present but not iterable (iteration at
line 51 raises TypeError), or an iterable of items with a flag recording
whether `isinstance(r.output, list)` holds (line 71). -/
inductive OutputField where
  | absent
  | nonIterable
  | items (xs : List OutputItem) (isList : Bool)
deriving DecidableEq

/-- The nested `usage.output_tokens_details` object. -/
structure OutputTokensDetails where
  reasoning_tokens : Option (Option Int)
deriving DecidableEq

/-- The `usage` summary of a raw response. -/
structure Usage where
  input_tokens : Option (Option Int)
  output_tokens : Option (Option Int)
  output_tokens_details : Option (Option OutputTokensDetails)
deriving DecidableEq

/-- The raw response object returned by the external collaborator; `usage`
is read with `getattr(r, "usage", None)` so absence and a None value
coincide in one `Option` layer. -/
structure RawResponse where
  output : OutputField
  usage : Option Usage
deriving DecidableEq

/-- The dict returned by `query` (lines 78-82 and 87). -/
structure QueryResult where
  text_response : String
  raw_response : Option RawResponse
  cost : ℚ
deriving DecidableEq

instance {ε α : Type} [DecidableEq ε] [DecidableEq α] : DecidableEq (Except ε α) := fun a b =>
  match a, b with
  | Except.ok x, Except.ok y => decidable_of_iff (x = y) (by simp)
  | Except.error x, Except.error y => decidable_of_iff (x = y) (by simp)
  | Except.ok _, Except.error _ => isFalse (by simp)
  | Except.error _, Except.ok _ => isFalse (by simp)

/-- The exceptions that can arise inside the `try` block of `query`. -/
inductive PyErr where
  | unsupportedModel
  | attributeError
  | typeError
  | transport
deriving DecidableEq

/-- The `_PRICING` table (lines 11-15): USD per 1M tokens, as
(input rate, output rate). -/
def _PRICING (model : String) : Option (ℚ × ℚ) :=
  if model = "gpt-5" then some (5 / 4, 10)
  else if model = "gpt-5-mini" then some (1 / 4, 2)
  else if model = "gpt-5-nano" then some (1 / 20, 2 / 5)
  else none

/-- The flat web-search fee per tool call, `_WEB_SEARCH_COST_PER_CALL`
(line 18): $0.01. -/
def _WEB_SEARCH_COST_PER_CALL : ℚ := 1 / 100

/-- Python `v or 0` applied to an int-or-None value: `None` and `0` are
falsy and give `0`; any other int is returned unchanged. -/
def or0 (v : Option Int) : Int :=
  match v with
  | none => 0
  | some n => if n = 0 then 0 else n

/-- `getattr(usage, f, 0) or 0` for an int-valued usage attribute `f`
(lines 60-61): a missing usage object or missing attribute yields the
getattr default `0`, then `or 0` maps a falsy value to `0`. -/
def usageField (u : Option Usage) (f : Usage → Option (Option Int)) : Int :=
  or0 (match u with
       | none => some 0
       | some us =>
         match f us with
         | none => some 0
         | some v => v)

/-- `in_tok` (line 60). -/
def inTok (u : Option Usage) : Int := usageField u Usage.input_tokens

/-- `out_tok` (line 61). -/
def outTok (u : Option Usage) : Int := usageField u Usage.output_tokens

/-- `reasoning_tok` (line 62):
`getattr(getattr(usage, "output_tokens_details", None), "reasoning_tokens", 0) or 0`. -/
def reasTok (u : Option Usage) : Int :=
  let d : Option OutputTokensDetails :=
    match u with
    | none => none
    | some us =>
      match us.output_tokens_details with
      | none => none
      | some dv => dv
  or0 (match d with
       | none => some 0
       | some dd =>
         match dd.reasoning_tokens with
         | none => some 0
         | some v => v)

/-- `billable_out_tok = out_tok + max(0, reasoning_tok - out_tok)` (line 63). -/
def billableOut (out_tok reasoning_tok : Int) : Int :=
  out_tok + max 0 (reasoning_tok - out_tok)

/-- The predicate of line 51: `getattr(m, "role", "") == "assistant"`. -/
def isAssistant (m : OutputItem) : Bool :=
  (m.role.getD "") == "assistant"

/-- Python `str.strip()`: drop leading and trailing whitespace. -/
def pyStrip (s : String) : String :=
  ⟨((s.data.dropWhile Char.isWhitespace).reverse.dropWhile Char.isWhitespace).reverse⟩

/-- Lines 54-56: concatenate the `text` of every content part carrying a
`text` attribute, in order, then strip surrounding whitespace. -/
def contentTexts (msg : OutputItem) : String :=
  pyStrip (String.join ((msg.content.getD []).filterMap ContentPart.text))

/-- Lines 51-56: find the first output item whose role is "assistant" and
join its text parts; iterating a missing or non-iterable `output` raises. -/
def extractText (o : OutputField) : Except PyErr String :=
  match o with
  | OutputField.absent => Except.error PyErr.attributeError
  | OutputField.nonIterable => Except.error PyErr.typeError
  | OutputField.items xs _ =>
    match xs.find? isAssistant with
    | none => Except.ok ""
    | some msg => Except.ok (contentTexts msg)

/-- Lines 70-74: count `web_search_call` items, guarded by
`hasattr(r, "output") and isinstance(r.output, list)`; any other shape of
`output` counts zero. -/
def countWebCalls (o : OutputField) : Nat :=
  match o with
  | OutputField.items xs true =>
    (xs.filter (fun i => (i.type.getD "") == "web_search_call")).length
  | _ => 0

/-- Lines 63-76: the unrounded cost of a successful call, for a pricing
entry `price = (input rate, output rate)`. -/
def successCost (price : ℚ × ℚ) (r : RawResponse) : ℚ :=
  let in_tok := inTok r.usage
  let out_tok := outTok r.usage
  let reasoning_tok := reasTok r.usage
  let billable_out_tok := billableOut out_tok reasoning_tok
  ((in_tok : ℚ) / 1000000) * price.1 + ((billable_out_tok : ℚ) / 1000000) * price.2
    + (countWebCalls r.output : ℚ) * _WEB_SEARCH_COST_PER_CALL

/-- Round half to even, Python's rounding mode for `round`. -/
def roundHalfEven (q : ℚ) : Int :=
  if q - ⌊q⌋ < 1 / 2 then ⌊q⌋
  else if 1 / 2 < q - ⌊q⌋ then ⌊q⌋ + 1
  else if ⌊q⌋ % 2 = 0 then ⌊q⌋ else ⌊q⌋ + 1

/-- Python `round(x, 6)` on an exactly represented value (line 81). -/
def round6 (q : ℚ) : ℚ := (roundHalfEven (q * 1000000) : ℚ) / 1000000

/-- The fallback dict of the `except` clause (line 87). -/
def fallbackResult : QueryResult :=
  { text_response := "", raw_response := none, cost := 0 }

/-- Lines 50-82 applied to a received raw response: extract the text (which
may raise), then assemble the success dict with the rounded cost. -/
def parsedResult (price : ℚ × ℚ) (r : RawResponse) : Except PyErr QueryResult :=
  match extractText r.output with
  | Except.error e => Except.error e
  | Except.ok text =>
    Except.ok { text_response := text
                raw_response := some r
                cost := round6 (successCost price r) }

/-- The body of `query` (lines 41-82) together with a flag recording whether
the external collaborator `create` was invoked: the pricing check at line 42
raises before the call at line 46, every later failure raises after it. -/
def queryBodyT (create : String → String → List String → String → Except PyErr RawResponse)
    (prompt : String) (model : String) (tools : List String) (response_format : String) :
    Except PyErr QueryResult × Bool :=
  match _PRICING model with
  | none => (Except.error PyErr.unsupportedModel, false)
  | some price =>
    (match create prompt model tools response_format with
     | Except.error e => Except.error e
     | Except.ok r => parsedResult price r,
     true)

/-- `query` (lines 28-87): the body wrapped in the catch-all `except` that
converts every exception into the fallback dict. -/
def query (create : String → String → List String → String → Except PyErr RawResponse)
    (prompt : String) (model : String) (tools : List String) (response_format : String) :
    QueryResult :=
  match (queryBodyT create prompt model tools response_format).1 with
  | Except.ok res => res
  | Except.error _ => fallbackResult

/-- Whether the external collaborator was invoked during `query`. -/
def createInvoked (create : String → String → List String → String → Except PyErr RawResponse)
    (prompt : String) (model : String) (tools : List String) (response_format : String) :
    Bool :=
  (queryBodyT create prompt model tools response_format).2

/-- Python `a or b` on string-or-None values: `None` and `""` are falsy. -/
def pyOr (a b : Option String) : Option String :=
  match a with
  | none => b
  | some s => if s = "" then b else some s

/-- Python truthiness of a string-or-None value. -/
def pyTruthy (o : Option String) : Bool :=
  match o with
  | none => false
  | some s => !(s == "")

/-- The constructed wrapper state: the stored credential. -/
structure WrapperState where
  api_key : String
deriving DecidableEq

/-- `__init__` (lines 20-26): `self.api_key = api_key or os.getenv("OPENAI_API_KEY")`,
then `if not self.api_key: raise ValueError(...)`. `env_key` is the value of
the environment variable, `none` when unset. -/
def init (api_key env_key : Option String) : Except Unit WrapperState :=
  match pyOr api_key env_key with
  | none => Except.error ()
  | some s => if s = "" then Except.error () else Except.ok ⟨s⟩

/-- A concrete raw response matching the spec's worked example: one assistant
message, two web-search calls, usage 1,000,000 input / 500,000 output /
500,000 reasoning tokens. -/
def exampleResponse : RawResponse :=
  { output := OutputField.items
      [ { role := some "assistant", type := some "message",
          content := some [{ text := some "Hello" }] },
        { role := none, type := some "web_search_call", content := none },
        { role := none, type := some "web_search_call", content := none } ] true,
    usage := some
      { input_tokens := some (some 1000000)
        output_tokens := some (some 500000)
        output_tokens_details := some (some { reasoning_tokens := some (some 500000) }) } }

/-- A collaborator that returns `exampleResponse`. -/
def exampleCreate : String → String → List String → String → Except PyErr RawResponse :=
  fun _ _ _ _ => Except.ok exampleResponse

/-- A raw response whose `output` attribute is absent but whose usage
summary reports a million input tokens. -/
def absentOutputResponse : RawResponse :=
  { output := OutputField.absent,
    usage := some
      { input_tokens := some (some 1000000)
        output_tokens := some (some 0)
        output_tokens_details := none } }

/-- C2: for all non-negative integer counts, the billable output tokens of
line 63 equal `output_tokens + max(0, reasoning_tokens - output_tokens)`;
this is `output_tokens` when `reasoning_tokens ≤ output_tokens` and
`reasoning_tokens` when `reasoning_tokens > output_tokens`. -/
theorem C2_billable_output (out_tok reasoning_tok : Int)
    (hout : 0 ≤ out_tok) (hreas : 0 ≤ reasoning_tok) :
    billableOut out_tok reasoning_tok = out_tok + max 0 (reasoning_tok - out_tok) ∧
    (reasoning_tok ≤ out_tok → billableOut out_tok reasoning_tok = out_tok) ∧
    (out_tok < reasoning_tok → billableOut out_tok reasoning_tok = reasoning_tok) := by
  refine ⟨rfl, ?_, ?_⟩ <;> intro h <;> unfold billableOut <;> omega

/-- Witness for C2 at (output, reasoning) = (5, 7). -/
theorem C2_billable_output_witness :
    billableOut 5 7 = 5 + max 0 (7 - 5) ∧
    ((7 : Int) ≤ 5 → billableOut 5 7 = 5) ∧ ((5 : Int) < 7 → billableOut 5 7 = 7) :=
  C2_billable_output 5 7 (by decide) (by decide)

/-- C3: whenever the body of `query` raises any exception, `query` swallows
it and returns the degraded fallback result; `query` itself is a total
function and never propagates an exception. -/
theorem C3_never_throws
    (create : String → String → List String → String → Except PyErr RawResponse)
    (prompt model : String) (tools : List String) (response_format : String) (e : PyErr)
    (h : (queryBodyT create prompt model tools response_format).1 = Except.error e) :
    query create prompt model tools response_format =
      { text_response := "", raw_response := none, cost := 0 } := by
  unfold query
  rw [h]
  rfl

/-- Witness for C3: a parse failure deep inside normalization (the `output`
attribute is absent) yields the fallback result. -/
theorem C3_never_throws_witness :
    query (fun _ _ _ _ => Except.ok { output := OutputField.absent, usage := none })
      "p" "gpt-5-mini" [] "text" =
      { text_response := "", raw_response := none, cost := 0 } :=
  C3_never_throws _ "p" "gpt-5-mini" [] "text" PyErr.attributeError (by decide)

/-- C4: for a model absent from the pricing table, `query` returns the
degraded fallback result and the external collaborator is never invoked:
the model check of line 42 precedes the dispatch of line 46. -/
theorem C4_unsupported_model
    (create : String → String → List String → String → Except PyErr RawResponse)
    (prompt model : String) (tools : List String) (response_format : String)
    (h : _PRICING model = none) :
    query create prompt model tools response_format =
      { text_response := "", raw_response := none, cost := 0 } ∧
    createInvoked create prompt model tools response_format = false := by
  unfold query createInvoked queryBodyT
  rw [h]
  exact ⟨rfl, rfl⟩

/-- Witness for C4 at the unsupported model "gpt-4". -/
theorem C4_unsupported_model_witness :
    query exampleCreate "p" "gpt-4" [] "text" =
      { text_response := "", raw_response := none, cost := 0 } ∧
    createInvoked exampleCreate "p" "gpt-4" [] "text" = false :=
  C4_unsupported_model exampleCreate "p" "gpt-4" [] "text" (by decide)

/-- C9: construction fails exactly when neither the explicit parameter nor
the environment variable carries a truthy credential. -/
theorem C9_credential_required (api_key env_key : Option String) :
    init api_key env_key = Except.error () ↔
      (pyTruthy api_key = false ∧ pyTruthy env_key = false) := by
  cases api_key with
  | none =>
    cases env_key with
    | none => simp [init, pyOr, pyTruthy]
    | some s => by_cases hs : s = "" <;> simp [init, pyOr, pyTruthy, hs]
  | some a =>
    by_cases ha : a = "" <;>
      cases env_key with
      | none => simp [init, pyOr, pyTruthy, ha]
      | some s => by_cases hs : s = "" <;> simp [init, pyOr, pyTruthy, ha, hs]

/-- Witness for C9: no explicit key and an empty environment variable fail
construction. -/
theorem C9_credential_required_witness :
    init none (some "") = Except.error () :=
  (C9_credential_required none (some "")).mpr ⟨by decide, by decide⟩

/-- C10: an empty explicit api_key behaves exactly like an absent one: the
constructor falls back to the environment variable, fails when that is also
absent or empty, and any successfully stored key is the truthy environment
value, never the falsy explicit one. -/
theorem C10_falsy_explicit_key (env_key : Option String) :
    init (some "") env_key = init none env_key ∧
    (pyTruthy env_key = false → init (some "") env_key = Except.error ()) ∧
    (∀ k : WrapperState, init (some "") env_key = Except.ok k →
      env_key = some k.api_key ∧ k.api_key ≠ "") := by
  refine ⟨by simp [init, pyOr], ?_, ?_⟩
  · intro h
    cases env_key with
    | none => simp [init, pyOr]
    | some s =>
      simp [pyTruthy] at h
      simp [init, pyOr, h]
  · intro k hk
    cases env_key with
    | none => simp [init, pyOr] at hk
    | some s =>
      by_cases hs : s = "" <;> simp [init, pyOr, hs] at hk
      simp [← hk, hs]

/-- Witness for C10: with an empty explicit key, construction matches the
absent-key behaviour on a set environment variable and fails on an unset one. -/
theorem C10_falsy_explicit_key_witness :
    init (some "") (some "sk") = init none (some "sk") ∧
    init (some "") none = Except.error () :=
  ⟨(C10_falsy_explicit_key (some "sk")).1,
   (C10_falsy_explicit_key none).2.1 (by decide)⟩

/-- Helper: with a priced model, the body is the match on the external call. -/
theorem queryBodyT_some
    (create : String → String → List String → String → Except PyErr RawResponse)
    (prompt model : String) (tools : List String) (response_format : String)
    (price : ℚ × ℚ) (hp : _PRICING model = some price) :
    queryBodyT create prompt model tools response_format =
      (match create prompt model tools response_format with
       | Except.error e => Except.error e
       | Except.ok r => parsedResult price r,
       true) := by
  unfold queryBodyT
  rw [hp]

/-- Helper: with a priced model and a received response, the body parses it. -/
theorem queryBodyT_ok
    (create : String → String → List String → String → Except PyErr RawResponse)
    (prompt model : String) (tools : List String) (response_format : String)
    (price : ℚ × ℚ) (r : RawResponse) (hp : _PRICING model = some price)
    (hc : create prompt model tools response_format = Except.ok r) :
    queryBodyT create prompt model tools response_format = (parsedResult price r, true) := by
  rw [queryBodyT_some create prompt model tools response_format price hp, hc]

/-- Helper: parsing fails exactly as text extraction does. -/
theorem parsedResult_err (price : ℚ × ℚ) (r : RawResponse) (e : PyErr)
    (ht : extractText r.output = Except.error e) :
    parsedResult price r = Except.error e := by
  unfold parsedResult
  rw [ht]

/-- Helper: parsing succeeds with the extracted text and the rounded cost. -/
theorem parsedResult_ok (price : ℚ × ℚ) (r : RawResponse) (text : String)
    (ht : extractText r.output = Except.ok text) :
    parsedResult price r =
      Except.ok { text_response := text, raw_response := some r,
                  cost := round6 (successCost price r) } := by
  unfold parsedResult
  rw [ht]

/-- Helper: the success path of `query`, fully reduced. -/
theorem query_success
    (create : String → String → List String → String → Except PyErr RawResponse)
    (prompt model : String) (tools : List String) (response_format : String)
    (price : ℚ × ℚ) (r : RawResponse) (text : String)
    (hp : _PRICING model = some price)
    (hc : create prompt model tools response_format = Except.ok r)
    (ht : extractText r.output = Except.ok text) :
    query create prompt model tools response_format =
      { text_response := text, raw_response := some r,
        cost := round6 (successCost price r) } := by
  unfold query
  rw [queryBodyT_ok create prompt model tools response_format price r hp hc,
    parsedResult_ok price r text ht]

/-- Helper: `query` either returns the fallback result or, when the pricing
lookup, the external call and text extraction all succeed, the composed
success record. -/
theorem query_cases
    (create : String → String → List String → String → Except PyErr RawResponse)
    (prompt model : String) (tools : List String) (response_format : String) :
    query create prompt model tools response_format = fallbackResult ∨
    ∃ price r text, _PRICING model = some price ∧
      create prompt model tools response_format = Except.ok r ∧
      extractText r.output = Except.ok text ∧
      query create prompt model tools response_format =
        { text_response := text, raw_response := some r,
          cost := round6 (successCost price r) } := by
  cases hp : _PRICING model with
  | none =>
    left
    unfold query queryBodyT
    rw [hp]
  | some price =>
    cases hc : create prompt model tools response_format with
    | error e =>
      left
      unfold query
      rw [queryBodyT_some create prompt model tools response_format price hp, hc]
    | ok r =>
      cases ht : extractText r.output with
      | error e =>
        left
        unfold query
        rw [queryBodyT_ok create prompt model tools response_format price r hp hc,
          parsedResult_err price r e ht]
      | ok text =>
        right
        exact ⟨price, r, text, rfl, rfl, ht,
          query_success create prompt model tools response_format price r text hp hc ht⟩

/-- C1: whenever the pricing lookup, the external call and text extraction
succeed, the returned cost is the token cost plus the flat per-tool-call
fees, rounded to six decimal places. -/
theorem C1_cost_formula
    (create : String → String → List String → String → Except PyErr RawResponse)
    (prompt model : String) (tools : List String) (response_format : String)
    (ir orate : ℚ) (r : RawResponse) (text : String)
    (hprice : _PRICING model = some (ir, orate))
    (hcreate : create prompt model tools response_format = Except.ok r)
    (htext : extractText r.output = Except.ok text) :
    (query create prompt model tools response_format).cost =
      round6 (((inTok r.usage : ℚ) / 1000000) * ir
        + ((billableOut (outTok r.usage) (reasTok r.usage) : ℚ) / 1000000) * orate
        + (countWebCalls r.output : ℚ) * _WEB_SEARCH_COST_PER_CALL) := by
  rw [query_success create prompt model tools response_format (ir, orate) r text
    hprice hcreate htext]
  simp [successCost]

/-- Witness for C1: the spec's worked example on "gpt-5-mini" with
1,000,000 input, 500,000 output, 500,000 reasoning tokens and two
web-search calls costs exactly 1.270000 USD. -/
theorem C1_cost_formula_witness :
    (query exampleCreate "p" "gpt-5-mini" [] "text").cost = 127 / 100 := by
  rw [C1_cost_formula exampleCreate "p" "gpt-5-mini" [] "text" (1 / 4) 2 exampleResponse
    "Hello" rfl rfl (by decide)]
  have hin : inTok exampleResponse.usage = 1000000 := by decide
  have hout : outTok exampleResponse.usage = 500000 := by decide
  have hreas : reasTok exampleResponse.usage = 500000 := by decide
  have hweb : countWebCalls exampleResponse.output = 2 := by decide
  have hb : billableOut 500000 500000 = 500000 := by decide
  rw [hin, hout, hreas, hweb, hb]
  norm_num [_WEB_SEARCH_COST_PER_CALL, round6, roundHalfEven]

/-- C5: on a response whose output field is a sequence, the extracted text
comes from the first item whose role is "assistant" by joining, in order,
the texts of the parts that carry one and trimming the result; with no
assistant item the result is the empty string and no error is raised. -/
theorem C5_text_extraction (xs : List OutputItem) (b : Bool) :
    (xs.find? isAssistant = none →
      extractText (OutputField.items xs b) = Except.ok "") ∧
    (∀ msg, xs.find? isAssistant = some msg →
      extractText (OutputField.items xs b) =
        Except.ok (pyStrip (String.join ((msg.content.getD []).filterMap ContentPart.text)))) := by
  constructor
  · intro h
    simp [extractText, h]
  · intro msg h
    simp [extractText, h, contentTexts]

/-- Witness for C5: an assistant item with text parts "Hello, " and
"world!" (and one part without text) extracts to "Hello, world!". -/
theorem C5_text_extraction_witness :
    extractText (OutputField.items
      [{ role := some "assistant", type := none,
         content := some [{ text := some "Hello, " }, { text := none },
                          { text := some "world!" }] }] true) =
      Except.ok "Hello, world!" :=
  ((C5_text_extraction
      [{ role := some "assistant", type := none,
         content := some [{ text := some "Hello, " }, { text := none },
                          { text := some "world!" }] }] true).2
    { role := some "assistant", type := none,
      content := some [{ text := some "Hello, " }, { text := none },
                       { text := some "world!" }] } (by decide)).trans (by decide)

/-- C7: usage extraction maps a missing usage object, a missing attribute
and a None value to 0 for input, output and reasoning tokens, reads an
actual integer value through, and never raises. -/
theorem C7_usage_defaults :
    (inTok none = 0 ∧ outTok none = 0 ∧ reasTok none = 0) ∧
    (∀ us : Usage, us.input_tokens = none → inTok (some us) = 0) ∧
    (∀ us : Usage, us.input_tokens = some none → inTok (some us) = 0) ∧
    (∀ (us : Usage) (v : Int), us.input_tokens = some (some v) → inTok (some us) = v) ∧
    (∀ us : Usage, us.output_tokens = none → outTok (some us) = 0) ∧
    (∀ us : Usage, us.output_tokens = some none → outTok (some us) = 0) ∧
    (∀ (us : Usage) (v : Int), us.output_tokens = some (some v) → outTok (some us) = v) ∧
    (∀ us : Usage, us.output_tokens_details = none → reasTok (some us) = 0) ∧
    (∀ us : Usage, us.output_tokens_details = some none → reasTok (some us) = 0) ∧
    (∀ (us : Usage) (d : OutputTokensDetails), us.output_tokens_details = some (some d) →
      d.reasoning_tokens = none → reasTok (some us) = 0) ∧
    (∀ (us : Usage) (d : OutputTokensDetails), us.output_tokens_details = some (some d) →
      d.reasoning_tokens = some none → reasTok (some us) = 0) ∧
    (∀ (us : Usage) (d : OutputTokensDetails) (v : Int),
      us.output_tokens_details = some (some d) → d.reasoning_tokens = some (some v) →
      reasTok (some us) = v) := by
  refine ⟨⟨rfl, rfl, rfl⟩, ?_, ?_, ?_, ?_, ?_, ?_, ?_, ?_, ?_, ?_, ?_⟩
  · intro us h; simp [inTok, usageField, or0, h]
  · intro us h; simp [inTok, usageField, or0, h]
  · intro us v h
    simp only [inTok, usageField, or0, h]
    rcases eq_or_ne v 0 with hv | hv <;> simp [hv]
  · intro us h; simp [outTok, usageField, or0, h]
  · intro us h; simp [outTok, usageField, or0, h]
  · intro us v h
    simp only [outTok, usageField, or0, h]
    rcases eq_or_ne v 0 with hv | hv <;> simp [hv]
  · intro us h; simp [reasTok, or0, h]
  · intro us h; simp [reasTok, or0, h]
  · intro us d h hd; simp [reasTok, or0, h, hd]
  · intro us d h hd; simp [reasTok, or0, h, hd]
  · intro us d v h hd
    simp only [reasTok, or0, h, hd]
    rcases eq_or_ne v 0 with hv | hv <;> simp [hv]

/-- Witness for C7: a missing input_tokens attribute reads as 0, a None
output_tokens_details reads as 0 reasoning tokens, and a present
output_tokens value reads through. -/
theorem C7_usage_defaults_witness :
    inTok (some { input_tokens := none, output_tokens := none,
                  output_tokens_details := none }) = 0 ∧
    reasTok (some { input_tokens := none, output_tokens := none,
                    output_tokens_details := some none }) = 0 ∧
    outTok (some { input_tokens := none, output_tokens := some (some 9),
                   output_tokens_details := none }) = 9 :=
  ⟨C7_usage_defaults.2.1 _ rfl,
   C7_usage_defaults.2.2.2.2.2.2.2.2.1 _ rfl,
   C7_usage_defaults.2.2.2.2.2.2.1 _ 9 rfl⟩

/-- Helper: every rate in the pricing table is non-negative. -/
theorem pricing_nonneg (model : String) (p : ℚ × ℚ) (h : _PRICING model = some p) :
    0 ≤ p.1 ∧ 0 ≤ p.2 := by
  unfold _PRICING at h
  split_ifs at h <;>
    first
      | (cases Option.some.inj h; constructor <;> norm_num)
      | simp at h

/-- Helper: rounding half to even preserves non-negativity. -/
theorem roundHalfEven_nonneg (q : ℚ) (h : 0 ≤ q) : 0 ≤ roundHalfEven q := by
  unfold roundHalfEven
  have hf : (0 : Int) ≤ ⌊q⌋ := Int.floor_nonneg.mpr h
  split_ifs <;> omega

/-- Helper: rounding to six decimal places preserves non-negativity. -/
theorem round6_nonneg (q : ℚ) (h : 0 ≤ q) : 0 ≤ round6 q := by
  unfold round6
  have hr : (0 : Int) ≤ roundHalfEven (q * 1000000) :=
    roundHalfEven_nonneg (q * 1000000) (by positivity)
  exact div_nonneg (by exact_mod_cast hr) (by norm_num)

/-- Helper: billable output tokens are non-negative whenever the raw output
token count is. -/
theorem billableOut_nonneg (a b : Int) (ha : 0 ≤ a) : 0 ≤ billableOut a b := by
  unfold billableOut
  have hm := le_max_left (0 : Int) (b - a)
  linarith

/-- Helper: the unrounded success cost is non-negative for non-negative
rates and counters. -/
theorem successCost_nonneg (price : ℚ × ℚ) (r : RawResponse)
    (h1 : 0 ≤ price.1) (h2 : 0 ≤ price.2)
    (hin : 0 ≤ inTok r.usage) (hout : 0 ≤ outTok r.usage) (hreas : 0 ≤ reasTok r.usage) :
    0 ≤ successCost price r := by
  simp only [successCost]
  have hb : (0 : Int) ≤ billableOut (outTok r.usage) (reasTok r.usage) :=
    billableOut_nonneg _ _ hout
  refine add_nonneg (add_nonneg ?_ ?_) ?_
  · exact mul_nonneg (div_nonneg (by exact_mod_cast hin) (by norm_num)) h1
  · exact mul_nonneg (div_nonneg (by exact_mod_cast hb) (by norm_num)) h2
  · exact mul_nonneg (by positivity) (by norm_num [_WEB_SEARCH_COST_PER_CALL])

/-- C8: every result of `query` — success path with non-negative usage
counters, or the failure fallback — carries a finite, non-negative cost
that is an integer multiple of 10^(-6), i.e. rounded to 6 decimal places. -/
theorem C8_cost_invariant
    (create : String → String → List String → String → Except PyErr RawResponse)
    (prompt model : String) (tools : List String) (response_format : String)
    (h : ∀ r : RawResponse, create prompt model tools response_format = Except.ok r →
      0 ≤ inTok r.usage ∧ 0 ≤ outTok r.usage ∧ 0 ≤ reasTok r.usage) :
    0 ≤ (query create prompt model tools response_format).cost ∧
    ∃ n : Int, (query create prompt model tools response_format).cost = (n : ℚ) / 1000000 := by
  rcases query_cases create prompt model tools response_format with
    hq | ⟨price, r, text, hp, hc, ht, hq⟩
  · rw [hq]
    exact ⟨le_refl 0, 0, by norm_num [fallbackResult]⟩
  · rw [hq]
    obtain ⟨hin, hout, hreas⟩ := h r hc
    obtain ⟨h1, h2⟩ := pricing_nonneg model price hp
    constructor
    · exact round6_nonneg _ (successCost_nonneg price r h1 h2 hin hout hreas)
    · exact ⟨roundHalfEven (successCost price r * 1000000), rfl⟩

/-- Witness for C8 on the worked example call. -/
theorem C8_cost_invariant_witness :
    0 ≤ (query exampleCreate "p" "gpt-5-mini" [] "text").cost ∧
    ∃ n : Int, (query exampleCreate "p" "gpt-5-mini" [] "text").cost = (n : ℚ) / 1000000 :=
  C8_cost_invariant exampleCreate "p" "gpt-5-mini" [] "text"
    (by intro r hr; cases hr; decide)

/-- C6 counterexample: a raw response whose `output` attribute is absent is
NOT normalized and costed from its usage counters: text extraction raises,
so `query` returns the zero-cost fallback, although the usage counters alone
would have priced the call at 0.25 USD on "gpt-5-mini". -/
theorem C6_counterexample :
    (extractText absentOutputResponse.output).isOk = false ∧
    query (fun _ _ _ _ => Except.ok absentOutputResponse) "p" "gpt-5-mini" [] "text" =
      { text_response := "", raw_response := none, cost := 0 } ∧
    round6 (successCost (1 / 4, 2) absentOutputResponse) = 1 / 4 := by
  refine ⟨rfl, rfl, ?_⟩
  have hin : inTok absentOutputResponse.usage = 1000000 := by decide
  have hout : outTok absentOutputResponse.usage = 0 := by decide
  have hreas : reasTok absentOutputResponse.usage = 0 := by decide
  have hb : billableOut 0 0 = 0 := by decide
  have hweb : countWebCalls absentOutputResponse.output = 0 := rfl
  simp only [successCost, hin, hout, hreas, hb, hweb]
  norm_num [round6, roundHalfEven, _WEB_SEARCH_COST_PER_CALL]

/-- C6 amended: tool-call counting alone is defensive — an absent output
attribute, a non-iterable one, and an iterable that is not a `list` all
count zero tool calls — but text extraction is not: when the output
attribute is absent or not iterable, iteration raises, the top-level
handler catches it, and `query` returns the degraded fallback instead of a
result costed from the usage counters. -/
theorem C6_output_handling :
    countWebCalls OutputField.absent = 0 ∧
    countWebCalls OutputField.nonIterable = 0 ∧
    (∀ xs : List OutputItem, countWebCalls (OutputField.items xs false) = 0) ∧
    (∀ (prompt model response_format : String) (tools : List String) (u : Option Usage),
      query (fun _ _ _ _ => Except.ok { output := OutputField.absent, usage := u })
        prompt model tools response_format =
        { text_response := "", raw_response := none, cost := 0 }) ∧
    (∀ (prompt model response_format : String) (tools : List String) (u : Option Usage),
      query (fun _ _ _ _ => Except.ok { output := OutputField.nonIterable, usage := u })
        prompt model tools response_format =
        { text_response := "", raw_response := none, cost := 0 }) := by
  refine ⟨rfl, rfl, fun xs => rfl, ?_, ?_⟩ <;>
    · intro prompt model response_format tools u
      rcases query_cases _ prompt model tools response_format with
        hq | ⟨price, r, text, hp, hc, ht, hq⟩
      · exact hq
      · simp only at hc
        cases hc
        simp [extractText] at ht
